import Mathlib

/-!
Shallow embedding of the render-asset dependency binder of
`src/framework/handlers/render.js` (class `RenderHandler` and its three
module-level callbacks), together with the parts of its external
collaborators that the binder observably uses: the asset registry /
event bus (`get`, `load`, `on`, `once`, `off`, event emission) and the
`Render` resource (`meshes`, `destroy`).

Mesh lists are modelled by reference identifiers (`MeshesRef`): a JS
assignment copies the reference, so two fields holding the same
`MeshesRef` alias the same underlying list object, and "aliased, not
copied" becomes equality of references.

JS runtime exceptions (reading a property of `undefined`) are modelled
by `Except Unit`: `.error ()` is a thrown `TypeError`, `.ok` is normal
completion.
-/

namespace RenderBinder

/-- A mesh list is identified by a reference; assignment copies the
reference, so equal references mean the very same list object. -/
abbrev MeshesRef := Nat

/-- The `resource` of an entry of `container.resource.renders`
(a render-asset handle inside a loaded container): it exposes `meshes`. -/
structure EntryResource where
  meshes : MeshesRef
deriving DecidableEq, Repr

/-- An entry of `container.resource.renders`: `resource` may be absent. -/
structure RenderEntry where
  resource : Option EntryResource
deriving DecidableEq, Repr

/-- The `resource` of a loaded container asset; the code guards
`containerResource.renders && ...`, so `renders` itself may be absent. -/
structure ContainerResource where
  renders : Option (List RenderEntry)
deriving DecidableEq, Repr

/-- A container asset held by the registry or carried by an event:
`id` plus an optional loaded `resource`. -/
structure ContainerAsset where
  id : Nat
  resource : Option ContainerResource
deriving DecidableEq, Repr

/-- Modelled from the spec: the `Render` resource created by
`RenderHandler.open` (class `Render` of `src/scene/render.js` is not
among the sources). It holds a mutable mesh list, absent (`none`) in
its initial empty state. `destroyCount` records how many times its
teardown operation ran. -/
structure RenderResource where
  meshes : Option MeshesRef
  destroyCount : Nat
deriving DecidableEq, Repr

/-- Modelled from the spec: `Render.destroy` — the teardown operation
releases the meshes the resource holds; the resource object itself
survives (the entity may still reference it). -/
def RenderResource.destroy (r : RenderResource) : RenderResource :=
  { meshes := none, destroyCount := r.destroyCount + 1 }

/-- The `data` of a render asset: `containerAsset` (an optional
container-asset id) and `renderIndex`. -/
structure RenderAssetData where
  containerAsset : Option Nat
  renderIndex : Nat
deriving DecidableEq, Repr

/-- A render asset entity: its `data` plus its optional `resource`. -/
structure RenderAsset where
  data : RenderAssetData
  resource : Option RenderResource
deriving DecidableEq, Repr

/-- Event names of the registry bus: `add:<id>`, `load:<id>`,
`remove:<id>`. -/
inductive EventName where
  | add (id : Nat)
  | load (id : Nat)
  | remove (id : Nat)
deriving DecidableEq, Repr

/-- The three callbacks of the binder, identified by name; together
with the owning render asset they form the (callback, scope) pair the
bus stores. -/
inductive Callback where
  | onContainerAssetAdded
  | onContainerAssetLoaded
  | onContainerAssetRemoved
deriving DecidableEq, Repr

/-- One subscription record of the event bus: event name, callback,
and whether it is a one-shot (`once`) subscription. -/
structure Sub where
  ev : EventName
  cb : Callback
  once : Bool
deriving DecidableEq, Repr

/-- The observable state: the render asset (the single scope all
subscriptions here own), the registry store, the live subscriptions,
the ids passed to `registry.load`, and two history fields —
`assignCount` counts mesh assignments ever performed and
`assignedSince` is true when an assignment happened and no teardown
has run since. -/
structure S where
  asset : RenderAsset
  store : List ContainerAsset
  subs : List Sub
  loadRequests : List Nat
  assignCount : Nat
  assignedSince : Bool
deriving DecidableEq, Repr

/-- Modelled from the spec: `registry.get(id)` — look the container
asset up by id in the store. -/
def registryGet (store : List ContainerAsset) (id : Nat) : Option ContainerAsset :=
  store.find? (fun c => c.id == id)

/-- Modelled from the spec: `registry.off(ev, cb, scope)` — idempotent
unsubscription of every subscription matching the (event, callback)
pair (the scope is always the one render asset modelled here). -/
def subsOff (subs : List Sub) (ev : EventName) (cb : Callback) : List Sub :=
  subs.filter (fun sub => !(sub.ev == ev && sub.cb == cb))

/-- Modelled from the spec: `registry.on` — append a persistent
subscription. -/
def subsOn (subs : List Sub) (ev : EventName) (cb : Callback) : List Sub :=
  subs ++ [⟨ev, cb, false⟩]

/-- Modelled from the spec: `registry.once` — append a one-shot
subscription that auto-revokes after its first delivery. -/
def subsOnce (subs : List Sub) (ev : EventName) (cb : Callback) : List Sub :=
  subs ++ [⟨ev, cb, true⟩]

/-- `function onContainerAssetLoaded(containerAsset)` of
`src/framework/handlers/render.js`: if the render asset has no
resource, return; otherwise read
`containerResource.renders && containerResource.renders[renderIndex]`
and, when that entry is truthy, assign
`renderAsset.resource.meshes = render.resource.meshes`. Reading
`renders` of an absent container resource, or `meshes` of an absent
entry resource, is a thrown `TypeError` (`.error ()`). -/
def onContainerAssetLoaded (containerAsset : ContainerAsset) (s : S) :
    Except Unit S :=
  match s.asset.resource with
  | none => .ok s
  | some res =>
    match containerAsset.resource with
    | none => .error ()
    | some containerResource =>
      match containerResource.renders with
      | none => .ok s
      | some renders =>
        match renders[s.asset.data.renderIndex]? with
        | none => .ok s
        | some render =>
          match render.resource with
          | none => .error ()
          | some entryRes =>
            .ok { s with
              asset := { s.asset with
                resource := some { res with meshes := some entryRes.meshes } }
              assignCount := s.assignCount + 1
              assignedSince := true }

/-- The subscription bookkeeping at the top of
`onContainerAssetAdded`: off then on for `load:<id>`, off then once for
`remove:<id>`. -/
def rebindSubs (subs : List Sub) (cid : Nat) : List Sub :=
  subsOnce
    (subsOff
      (subsOn (subsOff subs (.load cid) .onContainerAssetLoaded)
        (.load cid) .onContainerAssetLoaded)
      (.remove cid) .onContainerAssetRemoved)
    (.remove cid) .onContainerAssetRemoved

/-- `function onContainerAssetAdded(containerAsset)`: re-register the
`load:` listener (off then on) and the `remove:` listener (off then
once), then either request a load of the container (resource absent)
or invoke `onContainerAssetLoaded` synchronously (resource present). -/
def onContainerAssetAdded (containerAsset : ContainerAsset) (s : S) :
    Except Unit S :=
  match containerAsset.resource with
  | none => .ok { s with
      subs := rebindSubs s.subs containerAsset.id
      loadRequests := s.loadRequests ++ [containerAsset.id] }
  | some _ =>
    onContainerAssetLoaded containerAsset
      { s with subs := rebindSubs s.subs containerAsset.id }

/-- `function onContainerAssetRemoved(containerAsset)`: unsubscribe the
`load:` listener, then, if the render asset has a resource, invoke its
`destroy`. The entity keeps referencing the destroyed resource. -/
def onContainerAssetRemoved (containerAsset : ContainerAsset) (s : S) :
    Except Unit S :=
  match s.asset.resource with
  | none => .ok { s with
      subs := subsOff s.subs (.load containerAsset.id) .onContainerAssetLoaded }
  | some res => .ok { s with
      subs := subsOff s.subs (.load containerAsset.id) .onContainerAssetLoaded
      asset := { s.asset with resource := some res.destroy }
      assignedSince := false }

/-- `RenderHandler.patch(asset, registry)`: no-op when
`asset.data.containerAsset` is absent; otherwise look the container up,
and either register a one-shot `add:` subscription (not found) or call
`onContainerAssetAdded` synchronously (found). -/
def patch (s : S) : Except Unit S :=
  match s.asset.data.containerAsset with
  | none => .ok s
  | some cid =>
    match registryGet s.store cid with
    | none => .ok { s with subs := subsOnce s.subs (.add cid) .onContainerAssetAdded }
    | some containerAsset => onContainerAssetAdded containerAsset s

/-- Dispatch a stored callback name on its payload — the bus invoking
`callback.call(scope, containerAsset)`. -/
def runCallback (cb : Callback) (c : ContainerAsset) (s : S) : Except Unit S :=
  match cb with
  | .onContainerAssetAdded => onContainerAssetAdded c s
  | .onContainerAssetLoaded => onContainerAssetLoaded c s
  | .onContainerAssetRemoved => onContainerAssetRemoved c s

/-- Run a list of callbacks left to right, stopping at a thrown
exception. -/
def runCallbacks (cbs : List Callback) (c : ContainerAsset) (s : S) :
    Except Unit S :=
  match cbs with
  | [] => .ok s
  | cb :: rest => (runCallback cb c s).bind (runCallbacks rest c)

/-- The callbacks of the subscriptions matching an event name, in
registration order. -/
def matchedCbs (subs : List Sub) (ev : EventName) : List Callback :=
  (subs.filter (fun sub => sub.ev == ev)).map Sub.cb

/-- Modelled from the spec: the event bus delivering an emission — the
subscriptions matching the event name are snapshotted in registration
order, the one-shot ones auto-revoke, and each matched callback is
invoked with the payload container asset. -/
def emit (ev : EventName) (c : ContainerAsset) (s : S) : Except Unit S :=
  runCallbacks (matchedCbs s.subs ev) c
    { s with subs := s.subs.filter (fun sub => !(sub.ev == ev && sub.once)) }

/-- An external step of the system: a `patch` (bind) call, an event
emission, or the external loader placing an asset in the store. -/
inductive Action where
  | patchAct
  | emitAct (ev : EventName) (c : ContainerAsset)
  | storeAddAct (c : ContainerAsset)
deriving DecidableEq, Repr

/-- One step of the system. -/
def stepAct (a : Action) (s : S) : Except Unit S :=
  match a with
  | .patchAct => patch s
  | .emitAct ev c => emit ev c s
  | .storeAddAct c => .ok { s with store := s.store ++ [c] }

/-- Run a list of steps, stopping at a thrown exception. -/
def runActs (acts : List Action) (s : S) : Except Unit S :=
  match acts with
  | [] => .ok s
  | a :: rest => (stepAct a s).bind (runActs rest)

/-- The state right after `open` created the empty render resource and
before `patch`: empty resource, no subscriptions, no history. -/
def initS (containerAssetId : Option Nat) (renderIndex : Nat)
    (store : List ContainerAsset) : S :=
  { asset := { data := { containerAsset := containerAssetId
                         renderIndex := renderIndex }
               resource := some { meshes := none, destroyCount := 0 } }
    store := store
    subs := []
    loadRequests := []
    assignCount := 0
    assignedSince := false }

/-- The meshes currently held by the entity, absent when either the
resource or its mesh list is absent. -/
def assetMeshes (s : S) : Option MeshesRef :=
  match s.asset.resource with
  | none => none
  | some r => r.meshes

/-- The subscription pair installed by `onContainerAssetAdded`:
a persistent `load:<id>` listener and a one-shot `remove:<id>`
listener. -/
def bindSubs (cid : Nat) : List Sub :=
  [⟨.load cid, .onContainerAssetLoaded, false⟩,
   ⟨.remove cid, .onContainerAssetRemoved, true⟩]

/-- The one-shot `add:<id>` subscription registered by `patch` when the
container is absent from the store. -/
def addSub (cid : Nat) : Sub :=
  ⟨.add cid, .onContainerAssetAdded, true⟩

/-- Whether the entity currently holds a populated mesh list. -/
def meshesPopulated (s : S) : Bool :=
  match s.asset.resource with
  | none => false
  | some r => r.meshes.isSome

/-- The binder invariant: the entity keeps its (possibly destroyed)
resource object, and the mesh list is populated exactly when an
assignment has happened with no teardown since. -/
def BinderInv (s : S) : Prop :=
  s.asset.resource.isSome = true ∧ meshesPopulated s = s.assignedSince

end RenderBinder
namespace RenderBinder

/-- C7: invoking `onContainerAssetLoaded` on an entity whose resource is
absent is a no-op: the state is returned unchanged and no exception is
thrown. -/
theorem onLoaded_absent_resource_noop (c : ContainerAsset) (s : S)
    (h : s.asset.resource = none) :
    onContainerAssetLoaded c s = .ok s := by
  unfold onContainerAssetLoaded
  simp [h]

/-- C7 witness. -/
theorem onLoaded_absent_resource_noop_witness :
    onContainerAssetLoaded { id := 7, resource := none }
      { asset := { data := { containerAsset := some 7, renderIndex := 0 }
                   resource := none }
        store := [], subs := [], loadRequests := [], assignCount := 0
        assignedSince := false } =
      .ok { asset := { data := { containerAsset := some 7, renderIndex := 0 }
                       resource := none }
            store := [], subs := [], loadRequests := [], assignCount := 0
            assignedSince := false } :=
  onLoaded_absent_resource_noop _ _ rfl

/-- C8: `patch` on an entity whose `data.containerAsset` is absent is a
complete no-op — no subscription, no load request, the state (hence the
initial empty `meshes`) unchanged. -/
theorem patch_no_container_noop (s : S)
    (h : s.asset.data.containerAsset = none) :
    patch s = .ok s := by
  unfold patch
  simp [h]

/-- C8 witness. -/
theorem patch_no_container_noop_witness :
    patch (initS none 0 []) = .ok (initS none 0 []) :=
  patch_no_container_noop _ rfl

end RenderBinder
namespace RenderBinder

/-- C9: `onContainerAssetRemoved` on an entity whose resource is present
calls the resource teardown but leaves `entity.resource` still
referencing that same (now destroyed) object — it never becomes absent —
so a later `onContainerAssetLoaded` with a well-formed container still
passes the absent-resource guard and assigns meshes. -/
theorem onRemoved_keeps_resource_reference (c : ContainerAsset) (s : S)
    (res : RenderResource) (hres : s.asset.resource = some res) :
    ∃ s1, onContainerAssetRemoved c s = .ok s1 ∧
      s1.asset.resource = some res.destroy ∧
      (∀ c2 cres renders render entryRes,
        c2.resource = some cres →
        cres.renders = some renders →
        renders[s1.asset.data.renderIndex]? = some render →
        render.resource = some entryRes →
        ∃ s2, onContainerAssetLoaded c2 s1 = .ok s2 ∧
          assetMeshes s2 = some entryRes.meshes) := by
  have h1 : onContainerAssetRemoved c s = .ok { s with
      subs := subsOff s.subs (.load c.id) .onContainerAssetLoaded
      asset := { s.asset with resource := some res.destroy }
      assignedSince := false } := by
    unfold onContainerAssetRemoved
    simp [hres]
  refine ⟨_, h1, rfl, ?_⟩
  intro c2 cres renders render entryRes hc2 hrs hidx hentry
  have h2 : onContainerAssetLoaded c2 { s with
      subs := subsOff s.subs (.load c.id) .onContainerAssetLoaded
      asset := { s.asset with resource := some res.destroy }
      assignedSince := false } = .ok { s with
      subs := subsOff s.subs (.load c.id) .onContainerAssetLoaded
      asset := { s.asset with
        resource := some { res.destroy with meshes := some entryRes.meshes } }
      assignCount := s.assignCount + 1
      assignedSince := true } := by
    unfold onContainerAssetLoaded
    simp [hc2, hrs]
    simp at hidx
    simp [hidx, hentry]
  exact ⟨_, h2, rfl⟩

end RenderBinder
namespace RenderBinder

/-- C9 witness. -/
theorem onRemoved_keeps_resource_reference_witness :
    ∃ s1, onContainerAssetRemoved { id := 7, resource := none }
        (initS (some 7) 0 []) = .ok s1 ∧
      s1.asset.resource =
        some (RenderResource.destroy { meshes := none, destroyCount := 0 }) ∧
      (∀ c2 cres renders render entryRes,
        c2.resource = some cres →
        cres.renders = some renders →
        renders[s1.asset.data.renderIndex]? = some render →
        render.resource = some entryRes →
        ∃ s2, onContainerAssetLoaded c2 s1 = .ok s2 ∧
          assetMeshes s2 = some entryRes.meshes) :=
  onRemoved_keeps_resource_reference _ _ _ rfl

/-- C3 counterexample: with the entity resource present and the entry at
`renderIndex` present but lacking a `.resource`, the callback does not
skip silently — it throws (`renderAsset.resource.meshes =
render.resource.meshes` reads `meshes` of `undefined`). -/
theorem onLoaded_entry_without_resource_throws :
    onContainerAssetLoaded
      { id := 7, resource := some { renders := some [{ resource := none }] } }
      (initS (some 7) 0 []) = .error () := rfl

/-- C3 amended: on an entity whose resource is present, given a loaded
container resource, the mesh assignment happens exactly when the entry
at `renderIndex` exists and has a `.resource`; an absent `renders` list
or an out-of-range index is skipped silently with the state unchanged;
but an entry that exists without a `.resource` raises an exception out
of the callback instead of being skipped. -/
theorem onLoaded_entry_guard (c : ContainerAsset) (s : S)
    (res : RenderResource) (cres : ContainerResource)
    (hres : s.asset.resource = some res) (hc : c.resource = some cres) :
    (cres.renders = none → onContainerAssetLoaded c s = .ok s) ∧
    (∀ renders, cres.renders = some renders →
        renders[s.asset.data.renderIndex]? = none →
        onContainerAssetLoaded c s = .ok s) ∧
    (∀ renders render entryRes, cres.renders = some renders →
        renders[s.asset.data.renderIndex]? = some render →
        render.resource = some entryRes →
        onContainerAssetLoaded c s = .ok { s with
          asset := { s.asset with
            resource := some { res with meshes := some entryRes.meshes } }
          assignCount := s.assignCount + 1
          assignedSince := true }) ∧
    (∀ renders render, cres.renders = some renders →
        renders[s.asset.data.renderIndex]? = some render →
        render.resource = none →
        onContainerAssetLoaded c s = .error ()) := by
  refine ⟨?_, ?_, ?_, ?_⟩
  · intro hrs
    unfold onContainerAssetLoaded
    simp [hres, hc, hrs]
  · intro renders hrs hidx
    unfold onContainerAssetLoaded
    simp [hres, hc, hrs, hidx]
  · intro renders render entryRes hrs hidx hentry
    unfold onContainerAssetLoaded
    simp [hres, hc, hrs, hidx, hentry]
  · intro renders render hrs hidx hentry
    unfold onContainerAssetLoaded
    simp [hres, hc, hrs, hidx, hentry]

/-- C3 amended witness. -/
theorem onLoaded_entry_guard_witness :
    ((ContainerResource.mk (some [{ resource := none }])).renders = none →
      onContainerAssetLoaded
        { id := 7, resource := some { renders := some [{ resource := none }] } }
        (initS (some 7) 0 []) = .ok (initS (some 7) 0 [])) ∧
    (∀ renders,
      (ContainerResource.mk (some [{ resource := none }])).renders = some renders →
      renders[(initS (some 7) 0 []).asset.data.renderIndex]? = none →
      onContainerAssetLoaded
        { id := 7, resource := some { renders := some [{ resource := none }] } }
        (initS (some 7) 0 []) = .ok (initS (some 7) 0 [])) ∧
    (∀ renders render entryRes,
      (ContainerResource.mk (some [{ resource := none }])).renders = some renders →
      renders[(initS (some 7) 0 []).asset.data.renderIndex]? = some render →
      render.resource = some entryRes →
      onContainerAssetLoaded
        { id := 7, resource := some { renders := some [{ resource := none }] } }
        (initS (some 7) 0 []) = .ok { initS (some 7) 0 [] with
          asset := { (initS (some 7) 0 []).asset with
            resource := some { meshes := some entryRes.meshes, destroyCount := 0 } }
          assignCount := 1
          assignedSince := true }) ∧
    (∀ renders render,
      (ContainerResource.mk (some [{ resource := none }])).renders = some renders →
      renders[(initS (some 7) 0 []).asset.data.renderIndex]? = some render →
      render.resource = none →
      onContainerAssetLoaded
        { id := 7, resource := some { renders := some [{ resource := none }] } }
        (initS (some 7) 0 []) = .error ()) :=
  onLoaded_entry_guard _ _ _ _ rfl rfl

end RenderBinder
namespace RenderBinder

/-- C1: when the container asset is in the store and already loaded at
bind time and the entry at `renderIndex` exists with a resource, `patch`
returns normally and immediately afterwards the entity holds the very
same mesh-list reference as
`container.resource.renders[renderIndex].resource.meshes`. -/
theorem patch_loaded_aliases_meshes (s : S) (cid : Nat) (c : ContainerAsset)
    (res : RenderResource) (cres : ContainerResource)
    (renders : List RenderEntry) (render : RenderEntry)
    (entryRes : EntryResource)
    (hcid : s.asset.data.containerAsset = some cid)
    (hget : registryGet s.store cid = some c)
    (hc : c.resource = some cres)
    (hrs : cres.renders = some renders)
    (hidx : renders[s.asset.data.renderIndex]? = some render)
    (hentry : render.resource = some entryRes)
    (hres : s.asset.resource = some res) :
    ∃ s1, patch s = .ok s1 ∧ assetMeshes s1 = some entryRes.meshes := by
  have h1 : patch s = .ok { s with
      subs := rebindSubs s.subs c.id
      asset := { s.asset with
        resource := some { res with meshes := some entryRes.meshes } }
      assignCount := s.assignCount + 1
      assignedSince := true } := by
    unfold patch onContainerAssetAdded onContainerAssetLoaded
    simp [hcid, hget, hc, hrs, hres, hidx, hentry]
  exact ⟨_, h1, rfl⟩

/-- C1 witness. -/
theorem patch_loaded_aliases_meshes_witness :
    ∃ s1, patch (initS (some 7) 0
        [{ id := 7,
           resource := some { renders := some [{ resource := some { meshes := 42 } }] } }]) =
        .ok s1 ∧
      assetMeshes s1 = some (42 : MeshesRef) :=
  patch_loaded_aliases_meshes _ 7 _ _ _ _ _ _ rfl rfl rfl rfl rfl rfl rfl

end RenderBinder
namespace RenderBinder

/-- C2: binding while the container is absent from the store, then
delivering `add:<id>` with the still-unloaded container and then
`load:<id>` with the loaded container, assigns the same mesh-list
reference — the one held by the container entry — as the synchronous
already-loaded bind. -/
theorem async_bind_matches_sync_bind
    (cid ri : Nat) (store0 store1 : List ContainerAsset)
    (c0 c1 : ContainerAsset) (cres : ContainerResource)
    (renders : List RenderEntry) (render : RenderEntry)
    (entryRes : EntryResource)
    (hget0 : registryGet store0 cid = none)
    (hc0id : c0.id = cid)
    (hc0 : c0.resource = none)
    (hget1 : registryGet store1 cid = some c1)
    (hc1 : c1.resource = some cres)
    (hrs : cres.renders = some renders)
    (hidx : renders[ri]? = some render)
    (hentry : render.resource = some entryRes) :
    ∃ sAsync sSync,
      runActs [.patchAct, .emitAct (.add cid) c0, .emitAct (.load cid) c1]
        (initS (some cid) ri store0) = .ok sAsync ∧
      runActs [.patchAct] (initS (some cid) ri store1) = .ok sSync ∧
      assetMeshes sAsync = some entryRes.meshes ∧
      assetMeshes sSync = some entryRes.meshes ∧
      assetMeshes sAsync = assetMeshes sSync := by
  have hasync : runActs [.patchAct, .emitAct (.add cid) c0, .emitAct (.load cid) c1]
      (initS (some cid) ri store0) = .ok { initS (some cid) ri store0 with
        asset := { (initS (some cid) ri store0).asset with
          resource := some { meshes := some entryRes.meshes, destroyCount := 0 } }
        subs := [⟨.load cid, .onContainerAssetLoaded, false⟩,
                 ⟨.remove cid, .onContainerAssetRemoved, true⟩]
        loadRequests := [cid]
        assignCount := 1
        assignedSince := true } := by
    simp [runActs, stepAct, patch, emit, matchedCbs, runCallbacks, runCallback,
      onContainerAssetAdded, onContainerAssetLoaded, rebindSubs, subsOff, subsOn,
      subsOnce, initS, hget0, hc0id, hc0, hc1, hrs, hidx, hentry, Except.bind]
  have hsync : runActs [.patchAct] (initS (some cid) ri store1) =
      .ok { initS (some cid) ri store1 with
        asset := { (initS (some cid) ri store1).asset with
          resource := some { meshes := some entryRes.meshes, destroyCount := 0 } }
        subs := [⟨.load c1.id, .onContainerAssetLoaded, false⟩,
                 ⟨.remove c1.id, .onContainerAssetRemoved, true⟩]
        assignCount := 1
        assignedSince := true } := by
    simp [runActs, stepAct, patch, emit, matchedCbs, runCallbacks, runCallback,
      onContainerAssetAdded, onContainerAssetLoaded, rebindSubs, subsOff, subsOn,
      subsOnce, initS, hget1, hc1, hrs, hidx, hentry, Except.bind]
  exact ⟨_, _, hasync, hsync, rfl, rfl, rfl⟩

end RenderBinder
namespace RenderBinder

/-- C2 witness. -/
theorem async_bind_matches_sync_bind_witness :
    ∃ sAsync sSync,
      runActs [.patchAct, .emitAct (.add 7) { id := 7, resource := none },
               .emitAct (.load 7)
                 { id := 7,
                   resource := some { renders := some [{ resource := some { meshes := 42 } }] } }]
        (initS (some 7) 0 []) = .ok sAsync ∧
      runActs [.patchAct]
        (initS (some 7) 0
          [{ id := 7,
             resource := some { renders := some [{ resource := some { meshes := 42 } }] } }]) =
        .ok sSync ∧
      assetMeshes sAsync = some (42 : MeshesRef) ∧
      assetMeshes sSync = some (42 : MeshesRef) ∧
      assetMeshes sAsync = assetMeshes sSync :=
  async_bind_matches_sync_bind 7 0 [] _ _ _ _ _ _ _
    rfl rfl rfl rfl rfl rfl rfl rfl

end RenderBinder
namespace RenderBinder

theorem binderInv_onLoaded (c : ContainerAsset) (s s1 : S)
    (hinv : BinderInv s) (h : onContainerAssetLoaded c s = .ok s1) :
    BinderInv s1 := by
  unfold onContainerAssetLoaded at h
  split at h
  · simp at h; rw [← h]; exact hinv
  · split at h
    · exact absurd h (by simp)
    · split at h
      · simp at h; rw [← h]; exact hinv
      · split at h
        · simp at h; rw [← h]; exact hinv
        · split at h
          · exact absurd h (by simp)
          · simp at h
            rw [← h]
            exact ⟨rfl, by simp [meshesPopulated]⟩

theorem binderInv_onAdded (c : ContainerAsset) (s s1 : S)
    (hinv : BinderInv s) (h : onContainerAssetAdded c s = .ok s1) :
    BinderInv s1 := by
  unfold onContainerAssetAdded at h
  split at h
  · simp at h; rw [← h]; exact ⟨hinv.1, hinv.2⟩
  · refine binderInv_onLoaded c _ s1 ?_ h
    exact ⟨hinv.1, hinv.2⟩

theorem binderInv_onRemoved (c : ContainerAsset) (s s1 : S)
    (hinv : BinderInv s) (h : onContainerAssetRemoved c s = .ok s1) :
    BinderInv s1 := by
  unfold onContainerAssetRemoved at h
  split at h
  · simp at h; rw [← h]; exact ⟨hinv.1, hinv.2⟩
  · simp at h
    rw [← h]
    exact ⟨rfl, by simp [meshesPopulated, RenderResource.destroy]⟩

theorem binderInv_runCallback (cb : Callback) (c : ContainerAsset) (s s1 : S)
    (hinv : BinderInv s) (h : runCallback cb c s = .ok s1) : BinderInv s1 := by
  cases cb with
  | onContainerAssetAdded => exact binderInv_onAdded c s s1 hinv h
  | onContainerAssetLoaded => exact binderInv_onLoaded c s s1 hinv h
  | onContainerAssetRemoved => exact binderInv_onRemoved c s s1 hinv h

theorem binderInv_runCallbacks (cbs : List Callback) (c : ContainerAsset) :
    ∀ s s1 : S, BinderInv s → runCallbacks cbs c s = .ok s1 → BinderInv s1 := by
  induction cbs with
  | nil =>
    intro s s1 hinv h
    simp [runCallbacks] at h
    rw [← h]; exact hinv
  | cons cb rest ih =>
    intro s s1 hinv h
    unfold runCallbacks at h
    cases hstep : runCallback cb c s with
    | error e => rw [hstep] at h; exact absurd h (by simp [Except.bind])
    | ok smid =>
      rw [hstep] at h
      simp [Except.bind] at h
      exact ih smid s1 (binderInv_runCallback cb c s smid hinv hstep) h

theorem binderInv_patch (s s1 : S) (hinv : BinderInv s)
    (h : patch s = .ok s1) : BinderInv s1 := by
  unfold patch at h
  split at h
  · simp at h; rw [← h]; exact hinv
  · split at h
    · simp at h; rw [← h]; exact ⟨hinv.1, hinv.2⟩
    · exact binderInv_onAdded _ s s1 hinv h

theorem binderInv_emit (ev : EventName) (c : ContainerAsset) (s s1 : S)
    (hinv : BinderInv s) (h : emit ev c s = .ok s1) : BinderInv s1 := by
  unfold emit at h
  refine binderInv_runCallbacks _ c _ s1 ?_ h
  exact ⟨hinv.1, hinv.2⟩

theorem binderInv_stepAct (a : Action) (s s1 : S)
    (hinv : BinderInv s) (h : stepAct a s = .ok s1) : BinderInv s1 := by
  cases a with
  | patchAct => exact binderInv_patch s s1 hinv h
  | emitAct ev c => exact binderInv_emit ev c s s1 hinv h
  | storeAddAct c =>
    simp [stepAct] at h
    rw [← h]
    exact ⟨hinv.1, hinv.2⟩

theorem binderInv_runActs (acts : List Action) :
    ∀ s s1 : S, BinderInv s → runActs acts s = .ok s1 → BinderInv s1 := by
  induction acts with
  | nil =>
    intro s s1 hinv h
    simp [runActs] at h
    rw [← h]; exact hinv
  | cons a rest ih =>
    intro s s1 hinv h
    unfold runActs at h
    cases hstep : stepAct a s with
    | error e => rw [hstep] at h; exact absurd h (by simp [Except.bind])
    | ok smid =>
      rw [hstep] at h
      simp [Except.bind] at h
      exact ih smid s1 (binderInv_stepAct a s smid hinv hstep) h

/-- C6: in every state reachable from the freshly opened entity by any
interleaving of `patch` calls, `add:`/`load:`/`remove:` emissions and
store updates, the mesh list is populated exactly when a mesh
assignment has completed and no remove-triggered teardown has run
since. -/
theorem meshes_iff_bound_invariant (containerAssetId : Option Nat)
    (ri : Nat) (store : List ContainerAsset) (acts : List Action) (s1 : S)
    (hrun : runActs acts (initS containerAssetId ri store) = .ok s1) :
    meshesPopulated s1 = s1.assignedSince := by
  have hinit : BinderInv (initS containerAssetId ri store) := by
    constructor <;> rfl
  exact (binderInv_runActs acts _ s1 hinit hrun).2

/-- C6 witness. -/
theorem meshes_iff_bound_invariant_witness :
    meshesPopulated (initS (some 7) 0 []) =
      (initS (some 7) 0 []).assignedSince :=
  meshes_iff_bound_invariant (some 7) 0 [] [] _ rfl

end RenderBinder
namespace RenderBinder

theorem rebindSubs_nil (cid : Nat) : rebindSubs [] cid = bindSubs cid := by
  simp [rebindSubs, subsOff, subsOn, subsOnce, bindSubs]

theorem rebindSubs_stable (cid : Nat) :
    rebindSubs (bindSubs cid) cid = bindSubs cid := by
  simp [rebindSubs, subsOff, subsOn, subsOnce, bindSubs]

theorem matchedCbs_bindSubs_load (cid : Nat) :
    matchedCbs (bindSubs cid) (.load cid) = [.onContainerAssetLoaded] := by
  simp [matchedCbs, bindSubs]

theorem matchedCbs_bindSubs_remove (cid : Nat) :
    matchedCbs (bindSubs cid) (.remove cid) = [.onContainerAssetRemoved] := by
  simp [matchedCbs, bindSubs]

theorem patch_present_unloaded (cid : Nat) (c0 : ContainerAsset) (s : S)
    (hid : c0.id = cid) (hres : c0.resource = none)
    (h1 : s.asset.data.containerAsset = some cid)
    (h2 : registryGet s.store cid = some c0)
    (h3 : s.subs = bindSubs cid) :
    patch s = .ok { s with
      subs := bindSubs cid
      loadRequests := s.loadRequests ++ [cid] } := by
  unfold patch onContainerAssetAdded
  simp [h1, h2, hid, hres, h3, rebindSubs_stable]

theorem runActs_patch_unloaded (cid : Nat) (c0 : ContainerAsset)
    (hid : c0.id = cid) (hres : c0.resource = none) :
    ∀ (n : Nat) (s : S), s.asset.data.containerAsset = some cid →
      registryGet s.store cid = some c0 → s.subs = bindSubs cid →
      runActs (List.replicate n .patchAct) s =
        .ok { s with loadRequests := s.loadRequests ++ List.replicate n cid } := by
  intro n
  induction n with
  | zero =>
    intro s h1 h2 h3
    simp [runActs]
  | succ k ih =>
    intro s h1 h2 h3
    have hp := patch_present_unloaded cid c0 s hid hres h1 h2 h3
    have hrest := ih { s with subs := bindSubs cid
                              loadRequests := s.loadRequests ++ [cid] }
      h1 h2 rfl
    rw [List.replicate_succ]
    unfold runActs stepAct
    rw [hp]
    simp [Except.bind] at hrest ⊢
    rw [hrest]
    simp [List.replicate_succ, h3]

end RenderBinder
namespace RenderBinder

theorem bindSubs_filter_load_once (cid : Nat) :
    (bindSubs cid).filter
      (fun sub => !(sub.ev == EventName.load cid && sub.once)) = bindSubs cid := by
  simp [bindSubs]

/-- C4: binding any number of times against the same present-but-unloaded
container keeps exactly one `load:` subscription and exactly one
`remove:` subscription for the pair, and one later `load:` emission
performs exactly one mesh assignment — never two. -/
theorem repeated_bind_single_subscription
    (n cid ri : Nat) (hn : 1 ≤ n) (store : List ContainerAsset)
    (c0 c1 : ContainerAsset) (cres : ContainerResource)
    (renders : List RenderEntry) (render : RenderEntry)
    (entryRes : EntryResource)
    (hget : registryGet store cid = some c0) (hid : c0.id = cid)
    (hres0 : c0.resource = none)
    (hc1 : c1.resource = some cres) (hrs : cres.renders = some renders)
    (hidx : renders[ri]? = some render)
    (hentry : render.resource = some entryRes) :
    ∃ s1, runActs (List.replicate n .patchAct) (initS (some cid) ri store) =
        .ok s1 ∧
      matchedCbs s1.subs (.load cid) = [.onContainerAssetLoaded] ∧
      matchedCbs s1.subs (.remove cid) = [.onContainerAssetRemoved] ∧
      s1.assignCount = 0 ∧
      ∃ s2, emit (.load cid) c1 s1 = .ok s2 ∧
        s2.assignCount = 1 ∧ assetMeshes s2 = some entryRes.meshes := by
  obtain ⟨k, rfl⟩ : ∃ k, n = k + 1 := ⟨n - 1, (Nat.succ_pred_eq_of_pos hn).symm⟩
  have hp1 : patch (initS (some cid) ri store) =
      .ok { initS (some cid) ri store with
        subs := bindSubs cid
        loadRequests := [cid] } := by
    unfold patch onContainerAssetAdded
    simp [initS, hget, hid, hres0, rebindSubs_nil]
  have hrunAll : runActs (List.replicate (k + 1) .patchAct)
      (initS (some cid) ri store) =
      .ok { initS (some cid) ri store with
        subs := bindSubs cid
        loadRequests := [cid] ++ List.replicate k cid } := by
    rw [List.replicate_succ]
    unfold runActs stepAct
    rw [hp1]
    simp [Except.bind]
    exact runActs_patch_unloaded cid c0 hid hres0 k _ rfl hget rfl
  refine ⟨_, hrunAll, matchedCbs_bindSubs_load cid, matchedCbs_bindSubs_remove cid,
    rfl, ?_⟩
  have hemit : emit (.load cid) c1
      { initS (some cid) ri store with
        subs := bindSubs cid
        loadRequests := [cid] ++ List.replicate k cid } =
      .ok { initS (some cid) ri store with
        asset := { (initS (some cid) ri store).asset with
          resource := some { meshes := some entryRes.meshes, destroyCount := 0 } }
        subs := bindSubs cid
        loadRequests := [cid] ++ List.replicate k cid
        assignCount := 1
        assignedSince := true } := by
    unfold emit runCallbacks runCallback onContainerAssetLoaded
    simp [matchedCbs_bindSubs_load cid, bindSubs_filter_load_once cid,
      matchedCbs, bindSubs, initS, hc1, hrs, hidx, hentry, Except.bind]
    rfl
  exact ⟨_, hemit, rfl, rfl⟩

end RenderBinder
namespace RenderBinder

theorem runCallbacks_singleton (cb : Callback) (c : ContainerAsset) (s : S) :
    runCallbacks [cb] c s = runCallback cb c s := by
  unfold runCallbacks
  cases h : runCallback cb c s <;> simp [runCallbacks, Except.bind]

/-- C5: after a successful bind (one persistent `load:` listener, one
armed one-shot `remove:` listener), a `remove:<id>` emission runs the
teardown exactly once — the resource no longer holds meshes — and a
subsequent `load:<id>` emission leaves the state completely unchanged:
the `load:` listener was unsubscribed during removal and the `remove:`
listener auto-revoked by firing. -/
theorem remove_teardown_then_load_noop
    (cid : Nat) (s : S) (cr : ContainerAsset) (res : RenderResource)
    (hres : s.asset.resource = some res)
    (hcrid : cr.id = cid)
    (hloadsubs : ∀ sub ∈ s.subs, sub.ev = .load cid →
      sub.cb = .onContainerAssetLoaded)
    (hremsubs : s.subs.filter (fun sub => sub.ev == EventName.remove cid) =
      [⟨.remove cid, .onContainerAssetRemoved, true⟩]) :
    ∃ s1, emit (.remove cid) cr s = .ok s1 ∧
      s1.asset.resource = some res.destroy ∧
      res.destroy.meshes = none ∧
      res.destroy.destroyCount = res.destroyCount + 1 ∧
      matchedCbs s1.subs (.load cid) = [] ∧
      (∀ c2, emit (.load cid) c2 s1 = .ok s1) := by
  have hmatchedR : matchedCbs s.subs (.remove cid) =
      [.onContainerAssetRemoved] := by
    unfold matchedCbs
    rw [hremsubs]
    rfl
  have hnoload : ∀ sub ∈ subsOff
      (s.subs.filter (fun sub => !(sub.ev == EventName.remove cid && sub.once)))
      (.load cid) .onContainerAssetLoaded,
      ¬ (sub.ev == EventName.load cid) = true := by
    intro sub hmem hev
    have hmem1 := List.mem_filter.mp hmem
    have hmem2 := List.mem_filter.mp hmem1.1
    have hevEq : sub.ev = EventName.load cid := by simpa using hev
    have hcb := hloadsubs sub hmem2.1 hevEq
    have hkeep := hmem1.2
    simp [hevEq, hcb] at hkeep
  have hemitR : emit (.remove cid) cr s = .ok
      { s with
        subs := subsOff
          (s.subs.filter
            (fun sub => !(sub.ev == EventName.remove cid && sub.once)))
          (.load cid) .onContainerAssetLoaded
        asset := { s.asset with resource := some res.destroy }
        assignedSince := false } := by
    unfold emit
    rw [hmatchedR, runCallbacks_singleton]
    unfold runCallback onContainerAssetRemoved
    simp [hres, hcrid]
  have hm : matchedCbs
      ({ s with
        subs := subsOff
          (s.subs.filter
            (fun sub => !(sub.ev == EventName.remove cid && sub.once)))
          (.load cid) .onContainerAssetLoaded
        asset := { s.asset with resource := some res.destroy }
        assignedSince := false } : S).subs (.load cid) = [] := by
    unfold matchedCbs
    rw [List.filter_eq_nil_iff.mpr hnoload]
    rfl
  refine ⟨_, hemitR, rfl, rfl, rfl, hm, ?_⟩
  intro c2
  unfold emit
  rw [hm]
  have hsame : List.filter
      (fun sub => !(sub.ev == EventName.load cid && sub.once))
      ({ s with
        subs := subsOff
          (s.subs.filter
            (fun sub => !(sub.ev == EventName.remove cid && sub.once)))
          (.load cid) .onContainerAssetLoaded
        asset := { s.asset with resource := some res.destroy }
        assignedSince := false } : S).subs =
      ({ s with
        subs := subsOff
          (s.subs.filter
            (fun sub => !(sub.ev == EventName.remove cid && sub.once)))
          (.load cid) .onContainerAssetLoaded
        asset := { s.asset with resource := some res.destroy }
        assignedSince := false } : S).subs := by
    refine List.filter_eq_self.mpr ?_
    intro sub hmem
    have h1 := hnoload sub hmem
    have h2 : (sub.ev == EventName.load cid) = false := by
      simpa using h1
    simp [h2]
  rw [hsame]
  rfl

end RenderBinder
namespace RenderBinder

theorem patch_absent (cid : Nat) (s : S)
    (h1 : s.asset.data.containerAsset = some cid)
    (h2 : registryGet s.store cid = none) :
    patch s = .ok { s with subs := s.subs ++ [addSub cid] } := by
  unfold patch
  simp [h1, h2, subsOnce, addSub]

theorem runActs_patch_absent (cid : Nat) :
    ∀ (n : Nat) (s : S), s.asset.data.containerAsset = some cid →
      registryGet s.store cid = none →
      runActs (List.replicate n .patchAct) s =
        .ok { s with subs := s.subs ++ List.replicate n (addSub cid) } := by
  intro n
  induction n with
  | zero =>
    intro s h1 h2
    simp [runActs]
  | succ k ih =>
    intro s h1 h2
    have hp := patch_absent cid s h1 h2
    have hrest := ih { s with subs := s.subs ++ [addSub cid] } h1 h2
    rw [List.replicate_succ]
    unfold runActs stepAct
    rw [hp]
    simp [Except.bind] at hrest ⊢
    rw [hrest]
    simp [List.replicate_succ]

theorem matchedCbs_replicate_addSub (n cid : Nat) :
    matchedCbs (List.replicate n (addSub cid)) (.add cid) =
      List.replicate n .onContainerAssetAdded := by
  unfold matchedCbs
  rw [List.filter_replicate]
  simp [addSub, List.map_replicate]

theorem replicate_addSub_filter_once (n cid : Nat) :
    (List.replicate n (addSub cid)).filter
      (fun sub => !(sub.ev == EventName.add cid && sub.once)) = [] := by
  rw [List.filter_replicate]
  simp [addSub]

theorem onAdded_unloaded_nil (cid : Nat) (c0 : ContainerAsset)
    (hid : c0.id = cid) (hres : c0.resource = none) (s : S)
    (hsubs : s.subs = []) :
    onContainerAssetAdded c0 s = .ok { s with
      subs := bindSubs cid
      loadRequests := s.loadRequests ++ [cid] } := by
  unfold onContainerAssetAdded
  simp [hres, hid, hsubs, rebindSubs_nil]

theorem runCallbacks_onAdded_stable (cid : Nat) (c0 : ContainerAsset)
    (hid : c0.id = cid) (hres : c0.resource = none) :
    ∀ (k : Nat) (s : S), s.subs = bindSubs cid →
      runCallbacks (List.replicate k .onContainerAssetAdded) c0 s =
        .ok { s with loadRequests := s.loadRequests ++ List.replicate k cid } := by
  intro k
  induction k with
  | zero =>
    intro s h
    simp [runCallbacks]
  | succ m ih =>
    intro s h
    have hstep : onContainerAssetAdded c0 s = .ok { s with
        subs := bindSubs cid
        loadRequests := s.loadRequests ++ [cid] } := by
      unfold onContainerAssetAdded
      simp [hres, hid, h, rebindSubs_stable]
    have hrest := ih { s with subs := bindSubs cid
                              loadRequests := s.loadRequests ++ [cid] } rfl
    rw [List.replicate_succ]
    unfold runCallbacks runCallback
    rw [hstep]
    simp [Except.bind] at hrest ⊢
    rw [hrest]
    simp [List.replicate_succ, h]

end RenderBinder
namespace RenderBinder

/-- C10: invoking `patch` n times (n ≥ 2) while the container asset is
absent from the store accumulates n separate one-shot `add:`
subscriptions — `patch` performs no unsubscribe before its `once` —
so one later `add:<id>` emission invokes `onContainerAssetAdded` n
times, observable as n load requests for the container; only the
`load:`/`remove:` subscriptions end up deduplicated, not `add:`. -/
theorem repeated_patch_accumulates_add_subs
    (n cid ri : Nat) (hn : 2 ≤ n) (store : List ContainerAsset)
    (c0 : ContainerAsset)
    (hget : registryGet store cid = none)
    (hid : c0.id = cid) (hres : c0.resource = none) :
    ∃ s1, runActs (List.replicate n .patchAct) (initS (some cid) ri store) =
        .ok s1 ∧
      matchedCbs s1.subs (.add cid) =
        List.replicate n .onContainerAssetAdded ∧
      ∃ s2, emit (.add cid) c0 s1 = .ok s2 ∧
        s2.loadRequests = List.replicate n cid ∧
        matchedCbs s2.subs (.load cid) = [.onContainerAssetLoaded] ∧
        matchedCbs s2.subs (.remove cid) = [.onContainerAssetRemoved] := by
  obtain ⟨m, rfl⟩ : ∃ m, n = m + 1 :=
    ⟨n - 1, (Nat.succ_pred_eq_of_pos (by omega)).symm⟩
  have hrun := runActs_patch_absent cid (m + 1) (initS (some cid) ri store)
    rfl hget
  refine ⟨_, hrun, matchedCbs_replicate_addSub (m + 1) cid, ?_⟩
  have hemit : emit (.add cid) c0
      { initS (some cid) ri store with
        subs := (initS (some cid) ri store).subs ++
          List.replicate (m + 1) (addSub cid) } = .ok
      { initS (some cid) ri store with
        subs := bindSubs cid
        loadRequests := [cid] ++ List.replicate m cid } := by
    unfold emit
    rw [show matchedCbs
        ({ initS (some cid) ri store with
          subs := (initS (some cid) ri store).subs ++
            List.replicate (m + 1) (addSub cid) } : S).subs (.add cid) =
        List.replicate (m + 1) Callback.onContainerAssetAdded from
      matchedCbs_replicate_addSub (m + 1) cid]
    rw [show List.filter
        (fun sub => !(sub.ev == EventName.add cid && sub.once))
        ({ initS (some cid) ri store with
          subs := (initS (some cid) ri store).subs ++
            List.replicate (m + 1) (addSub cid) } : S).subs = ([] : List Sub) from
      replicate_addSub_filter_once (m + 1) cid]
    rw [List.replicate_succ]
    unfold runCallbacks runCallback
    have hstep := onAdded_unloaded_nil cid c0 hid hres
      { initS (some cid) ri store with
        subs := ([] : List Sub) } rfl
    rw [hstep]
    have hrest := runCallbacks_onAdded_stable cid c0 hid hres m
      { initS (some cid) ri store with
        subs := bindSubs cid
        loadRequests := (initS (some cid) ri store).loadRequests ++ [cid] } rfl
    simp [Except.bind] at hrest ⊢
    rw [hrest]
    simp [initS]
  refine ⟨_, hemit, ?_, matchedCbs_bindSubs_load cid, matchedCbs_bindSubs_remove cid⟩
  simp [List.replicate_succ]

end RenderBinder
namespace RenderBinder

/-- C4 witness. -/
theorem repeated_bind_single_subscription_witness :
    ∃ s1, runActs (List.replicate 2 .patchAct)
        (initS (some 7) 0 [{ id := 7, resource := none }]) = .ok s1 ∧
      matchedCbs s1.subs (.load 7) = [.onContainerAssetLoaded] ∧
      matchedCbs s1.subs (.remove 7) = [.onContainerAssetRemoved] ∧
      s1.assignCount = 0 ∧
      ∃ s2, emit (.load 7)
          { id := 7,
            resource := some { renders := some [{ resource := some { meshes := 42 } }] } }
          s1 = .ok s2 ∧
        s2.assignCount = 1 ∧
        assetMeshes s2 = some (42 : MeshesRef) :=
  repeated_bind_single_subscription 2 7 0 (by decide) _ _ _ _ _ _ _
    rfl rfl rfl rfl rfl rfl rfl

/-- C5 witness. -/
theorem remove_teardown_then_load_noop_witness :
    ∃ s1, emit (.remove 7) { id := 7, resource := none }
        { asset := { data := { containerAsset := some 7, renderIndex := 0 }
                     resource := some { meshes := some 42, destroyCount := 0 } }
          store := []
          subs := [⟨.load 7, .onContainerAssetLoaded, false⟩,
                   ⟨.remove 7, .onContainerAssetRemoved, true⟩]
          loadRequests := []
          assignCount := 1
          assignedSince := true } = .ok s1 ∧
      s1.asset.resource =
        some (RenderResource.destroy { meshes := some 42, destroyCount := 0 }) ∧
      (RenderResource.destroy { meshes := some 42, destroyCount := 0 }).meshes =
        none ∧
      (RenderResource.destroy
        { meshes := some 42, destroyCount := 0 }).destroyCount =
        (0 : Nat) + 1 ∧
      matchedCbs s1.subs (.load 7) = [] ∧
      (∀ c2, emit (.load 7) c2 s1 = .ok s1) :=
  remove_teardown_then_load_noop 7 _ _ _ rfl rfl (by decide) (by decide)

/-- C10 witness. -/
theorem repeated_patch_accumulates_add_subs_witness :
    ∃ s1, runActs (List.replicate 2 .patchAct) (initS (some 7) 0 []) =
        .ok s1 ∧
      matchedCbs s1.subs (.add 7) =
        List.replicate 2 .onContainerAssetAdded ∧
      ∃ s2, emit (.add 7) { id := 7, resource := none } s1 = .ok s2 ∧
        s2.loadRequests = List.replicate 2 7 ∧
        matchedCbs s2.subs (.load 7) = [.onContainerAssetLoaded] ∧
        matchedCbs s2.subs (.remove 7) = [.onContainerAssetRemoved] :=
  repeated_patch_accumulates_add_subs 2 7 0 (by decide) [] _ rfl rfl rfl

end RenderBinder
